import Mathlib

/-!
Verification of the lazymc lazy-start proxy core.

Shallow embedding of the repository sources `src/server.rs`, `src/status.rs`
and `src/main.rs` (lazymc, a lazy-start proxy for a Minecraft server), with
theorems settling the specification claims about them.

Time is modelled as a natural number of seconds: every function of the source
that calls `Instant::now()` receives the current instant `now : Nat` as an
explicit argument.  Mutation of the shared `ServerState` is modelled by
explicit state passing.
-/

/-! ## Data model (external crate `minecraft_protocol`, shapes from the spec) -/

/-- Mirrors `ServerVersion { name: String, protocol: i32 }`. -/
structure ServerVersion where
  name : String
  protocol : Int
deriving Repr, DecidableEq

/-- Mirrors `OnlinePlayers { online: i32, max: i32, sample: [...] }`.  Sample entries
are kept abstract as strings; the code only ever builds an empty sample. -/
structure OnlinePlayers where
  online : Int
  max : Int
  sample : List String
deriving Repr, DecidableEq

/-- Mirrors `ServerStatus { version, description, players }`.  The chat `Message`
description is modelled by its text payload. -/
structure ServerStatus where
  version : ServerVersion
  description : String
  players : OnlinePlayers
deriving Repr, DecidableEq

/-! ## Configuration

Modelled from the spec: the `Config` struct lives in `src/config.rs`, which is
not part of the given sources; its consumed fields are enumerated in the spec
(`time.sleep_after`, `time.min_online_time`,
`messages.login_starting`, `messages.motd_starting`, `messages.motd_sleeping`). -/

/-- Modelled from the spec: time-related configuration, seconds (u32). -/
structure TimeConfig where
  sleep_after : Nat
  min_online_time : Nat
deriving Repr, DecidableEq

/-- Modelled from the spec: configurable client-facing messages. -/
structure MessagesConfig where
  login_starting : String
  motd_starting : String
  motd_sleeping : String
deriving Repr, DecidableEq

/-- Modelled from the spec: the configuration fields consumed by the core. -/
structure Config where
  time : TimeConfig
  messages : MessagesConfig
deriving Repr, DecidableEq

/-! ## Server lifecycle state (`src/server.rs`) -/

/-- Mirrors `ServerState` from `src/server.rs` lines 12-40: atomic flags
`online`/`starting`/`stopping`, guarded `pid`, sticky `status`,
`last_active` and `keep_online_until` instants. -/
structure ServerState where
  online : Bool
  starting : Bool
  stopping : Bool
  pid : Option Nat
  status : Option ServerStatus
  last_active : Option Nat
  keep_online_until : Option Nat
deriving Repr, DecidableEq

namespace ServerState

/-- Mirrors `ServerState::default()`: all flags false, all optionals `None`. -/
def default : ServerState :=
  { online := false, starting := false, stopping := false, pid := none,
    status := none, last_active := none, keep_online_until := none }

/-- Mirrors `ServerState::set_online` (server.rs lines 48-51). -/
def set_online (s : ServerState) (b : Bool) : ServerState := { s with online := b }

/-- Mirrors `ServerState::set_starting` (server.rs lines 58-61). -/
def set_starting (s : ServerState) (b : Bool) : ServerState := { s with starting := b }

/-- Mirrors `ServerState::set_pid` (server.rs lines 93-96). -/
def set_pid (s : ServerState) (p : Option Nat) : ServerState := { s with pid := p }

/-- Mirrors `ServerState::clone_status` (server.rs lines 98-101). -/
def clone_status (s : ServerState) : Option ServerStatus := s.status

/-- Mirrors `ServerState::set_status` (server.rs lines 103-106):
`self.status.lock().unwrap().replace(status)`. -/
def set_status (s : ServerState) (st : ServerStatus) : ServerState :=
  { s with status := some st }

/-- Mirrors `ServerState::update_last_active_time` (server.rs lines 108-111):
`self.last_active.lock().unwrap().replace(Instant::now())`. -/
def update_last_active_time (s : ServerState) (now : Nat) : ServerState :=
  { s with last_active := some now }

/-- Mirrors `ServerState::set_keep_online_until` (server.rs lines 113-118):
`*self.keep_online_until.lock().unwrap() = duration.filter(|d| *d > 0)
  .map(|d| Instant::now() + Duration::from_secs(d as u64))`. -/
def set_keep_online_until (s : ServerState) (now : Nat) (duration : Option Nat) :
    ServerState :=
  { s with keep_online_until :=
      ((duration.filter (fun d => decide (d > 0))).map (fun d => now + d)) }

/-- Mirrors `ServerState::update_status` (server.rs lines 120-151): reads `stopping`,
computes `online = status.is_some() && !stopping`, stores it; on a false→true
transition of `online` refreshes `last_active` and sets the keep-online
window; afterwards, when a status was provided, refreshes `last_active` if
players are online and replaces the sticky `status`. -/
def update_status (s : ServerState) (config : Config) (status : Option ServerStatus)
    (now : Nat) : ServerState :=
  let stopping := s.stopping
  let was_online := s.online
  let online := status.isSome && !stopping
  let s1 := s.set_online online
  let s2 :=
    if !was_online && online then
      (s1.update_last_active_time now).set_keep_online_until now
        (some config.time.min_online_time)
    else s1
  match status with
  | some st =>
      let s3 := if st.players.online > 0 then s2.update_last_active_time now else s2
      s3.set_status st
  | none => s2

/-- Mirrors `ServerState::should_sleep` (server.rs lines 153-194), exactly as written:
returns false while the keep-online window holds; then
`if !self.online() || !self.starting() { return false; }` (note the negation
on `starting`); then false when the last known status has players online;
finally compares the elapsed time since `last_active` with
`config.time.sleep_after`. -/
def should_sleep (s : ServerState) (config : Config) (now : Nat) : Bool :=
  let keep_online := (s.keep_online_until.map (fun i => decide (i ≥ now))).getD false
  if keep_online then false
  else if !s.online || !s.starting then false
  else
    let players_online := (s.status.map (fun st => decide (st.players.online > 0))).getD false
    if players_online then false
    else
      match s.last_active with
      | some last_idle => decide (now - last_idle ≥ config.time.sleep_after)
      | none => false

end ServerState

/-- Mirrors `start_server` (server.rs lines 201-214): returns unchanged (and spawns
nothing) when already starting; otherwise sets `starting`, refreshes
`last_active`, and spawns the process controller.  The boolean of the result
records whether the controller task was spawned. -/
def start_server (server : ServerState) (now : Nat) : ServerState × Bool :=
  if server.starting then (server, false)
  else (((server.set_starting true).update_last_active_time now), true)

/-- Outcome of one run of the process controller, used to drive
`invoke_server_command`: either spawning the child fails, or it succeeds
yielding a PID and the child later exits. -/
inductive SpawnOutcome where
  | spawnFailed
  | spawned (pid : Nat)
deriving Repr, DecidableEq

/-- Mirrors `invoke_server_command` (server.rs lines 217-252), with the process
interaction abstracted by a `SpawnOutcome`: on `cmd.spawn()?` failure the
function returns early with `Err` touching no state (the `TODO` at line 245
notes the flags are not reset on this path); on success it stores the PID,
waits for the child, then resets `pid`, `online`, `starting` and `stopping`. -/
def invoke_server_command (outcome : SpawnOutcome) (state : ServerState) :
    ServerState × Except Unit Unit :=
  match outcome with
  | .spawnFailed => (state, .error ())
  | .spawned pid =>
      let s1 := state.set_pid (some pid)
      let s2 := ((s1.set_pid none).set_online false).set_starting false
      ({ s2 with stopping := false }, .ok ())

/-! ## VarInt codec and raw packets

Modelled from the spec: `read_var_int` lives in `src/types.rs` and
`RawPacket` in the protocol module, neither of which is among the given
sources.  The spec fixes them: little-endian base-128 with a continuation
bit in bit 7, at most 5 bytes for a 32-bit value, error kinds `Incomplete`
and `Overflow`; a raw packet decodes as `VarInt(total_len)` followed by
`VarInt(id)` followed by `data`. -/

/-- Modelled from the spec: error kinds of the VarInt reader. -/
inductive VarIntError where
  | incomplete
  | overflow
deriving Repr, DecidableEq

/-- Modelled from the spec: worker for `read_var_int`; `i` bytes are already
consumed and accumulated into `acc`. -/
def readVarIntAux (i acc : Nat) : List Nat → Except VarIntError (Nat × Nat)
  | [] => .error .incomplete
  | b :: rest =>
    let acc2 := acc + (b % 128) * 2 ^ (7 * i)
    if b < 128 then .ok (i + 1, acc2 % 2 ^ 32)
    else if i + 1 ≥ 5 then .error .overflow
    else readVarIntAux (i + 1) acc2 rest

/-- Modelled from the spec: `read_var_int(buf) → (bytes_consumed, value)`. -/
def read_var_int (buf : List Nat) : Except VarIntError (Nat × Nat) :=
  readVarIntAux 0 0 buf

/-- Mirrors `RawPacket { id: VarInt, data: bytes }`. -/
structure RawPacket where
  id : Nat
  data : List Nat
deriving Repr, DecidableEq

/-- Modelled from the spec: `RawPacket::decode(raw)` parses the leading
length VarInt, then within the remainder parses the packet id VarInt; the
rest is the payload. -/
def RawPacket.decode (raw : List Nat) : Option RawPacket :=
  match read_var_int raw with
  | .error _ => none
  | .ok (c, _len) =>
    let rest := raw.drop c
    match read_var_int rest with
    | .error _ => none
    | .ok (ci, id) => some ⟨id, rest.drop ci⟩

/-! ## Packet framer (`read_packet`, `src/main.rs` lines 92-151)

One `stream.read_buf` call is modelled by a `ReadEvent`: a chunk of bytes
(empty chunk = EOF), a `ConnectionReset` error, or any other I/O error. -/

/-- Models the outcome of one `stream.read_buf` call in `read_packet`. -/
inductive ReadEvent where
  | bytes (bs : List Nat)
  | reset
  | ioError
deriving Repr, DecidableEq

/-- Outcome of one of the two read loops of `read_packet`: the buffer reached
the needed length (carrying the unread events), or the connection closed
(EOF chunk or reset), or a hard read error occurred, or the modelled event
list ran out (the real stream would simply keep waiting). -/
inductive FillResult where
  | done (buf : List Nat) (rest : List ReadEvent)
  | closed
  | failed
  | starved
deriving Repr, DecidableEq

/-- Mirrors the read loops of `read_packet` (main.rs lines 98-114 and
127-144): while the buffer is shorter than `need`, read; `Ok` with an empty
chunk returns `Ok(None)`, a `ConnectionReset` error returns `Ok(None)`, any
other error returns `Err(())`, otherwise the chunk is appended. -/
def fill (need : Nat) : List Nat → List ReadEvent → FillResult
  | buf, [] => if need ≤ buf.length then .done buf [] else .starved
  | buf, e :: rest =>
    if need ≤ buf.length then .done buf (e :: rest)
    else
      match e with
      | .bytes bs => if bs.isEmpty then .closed else fill need (buf ++ bs) rest
      | .reset => .closed
      | .ioError => .failed

/-- Result of `read_packet`: `closed` models `Ok(None)`, `framingError`
models `Err(())`, `packet` models `Ok(Some((packet, raw)))` together with the
buffer and read events left over, and `starved` marks an exhausted modelled
event list. -/
inductive ReadPacketResult where
  | closed
  | framingError
  | packet (p : RawPacket) (raw : List Nat) (remaining : List Nat) (rest : List ReadEvent)
  | starved
deriving Repr, DecidableEq

/-- Mirrors `read_packet` (main.rs lines 92-151): read until two bytes are
buffered, parse the length VarInt (parse failure is `Err`), read until
`consumed + len` bytes are buffered, split them off and decode them as a
`RawPacket` (decode failure is `Err`). -/
def read_packet (buf : List Nat) (reads : List ReadEvent) : ReadPacketResult :=
  match fill 2 buf reads with
  | .closed => .closed
  | .failed => .framingError
  | .starved => .starved
  | .done buf1 rest1 =>
    match read_var_int buf1 with
    | .error _ => .framingError
    | .ok (consumed, len) =>
      match fill (consumed + len) buf1 rest1 with
      | .closed => .closed
      | .failed => .framingError
      | .starved => .starved
      | .done buf2 rest2 =>
        match RawPacket.decode (buf2.take (consumed + len)) with
        | none => .framingError
        | some p => .packet p (buf2.take (consumed + len)) (buf2.drop (consumed + len)) rest2

/-! ## Protocol constants and client session state

Modelled from the spec: these live in the protocol module (`src/proto.rs`),
which is not among the given sources.  The spec fixes the hijacked packet
ids (0x00 for Login Start and Status Request, 0x01 for Ping), the default
version reported before any probe succeeded ("1.16.5", protocol 754), and
the `ClientState` mapping `from_id(1) = Status`, `from_id(2) = Login`. -/

/-- Modelled from the spec: packet id of Login Start. -/
def LOGIN_PACKET_ID_LOGIN_START : Nat := 0

/-- Modelled from the spec: packet id of Status Request. -/
def STATUS_PACKET_ID_STATUS : Nat := 0

/-- Modelled from the spec: packet id of Ping. -/
def STATUS_PACKET_ID_PING : Nat := 1

/-- Modelled from the spec: default version name reported before a probe. -/
def PROTO_DEFAULT_VERSION : String := "1.16.5"

/-- Modelled from the spec: default protocol number reported before a probe. -/
def PROTO_DEFAULT_PROTOCOL : Int := 754

/-- Modelled from the spec: per-connection protocol phase. -/
inductive ClientState where
  | handshake
  | status
  | login
  | play
deriving Repr, DecidableEq

/-- Modelled from the spec: `ClientState::from_id` with `1 = Status`,
`2 = Login`; every other value is unknown (`None`), which callers unwrap
with `expect("unknown next client state")`. -/
def ClientState.from_id (i : Int) : Option ClientState :=
  if i = 1 then some .status else if i = 2 then some .login else none

/-- Mirrors the `Handshake` packet body (external crate, shape from the
spec): protocol version, server address and port, and the requested next
state. -/
structure Handshake where
  protocol_version : Int
  server_address : String
  server_port : Nat
  next_state : Int
deriving Repr, DecidableEq

/-! ## Status hijack handler (`serve`, `src/status.rs` lines 23-139) -/

/-- One framed inbound packet as the serve loop sees it: its id, the result
of the external `Handshake::decode` on its data (only consulted by the
handshake hijack), and its raw framed bytes (echoed by the ping hijack). -/
structure InPacket where
  id : Nat
  handshakeDecode : Option Handshake
  raw : List Nat
deriving Repr, DecidableEq

/-- One iteration's input in the serve loop: `read_packet` yielded a packet,
or failed with a framing error.  The end of the list models `Ok(None)`
(client EOF). -/
inductive ReadItem where
  | packet (p : InPacket)
  | readFailed
deriving Repr, DecidableEq

/-- Payload of a response packet written by the serve loop. -/
inductive OutBody where
  | loginDisconnect (reason : String)
  | statusResponse (st : ServerStatus)
deriving Repr, DecidableEq

/-- Observable action of the serve loop: a response packet written with a
given packet id, a verbatim raw echo, or a `start_server` request (the
boolean records whether a controller task was actually spawned). -/
inductive Event where
  | wrotePacket (id : Nat) (body : OutBody)
  | wroteRaw (bytes : List Nat)
  | startedServer (spawned : Bool)
deriving Repr, DecidableEq

/-- How the serve loop ended: a plain `break` (EOF, read error, handshake
decode failure, or the post-login-hijack break), or the
`expect("unknown next client state")` panic on an unknown `next_state`. -/
inductive ServeEnd where
  | terminated
  | panicked
deriving Repr, DecidableEq

/-- Mirrors the status response construction of `serve` (status.rs lines
80-108): version and max-players from the last known status when present,
else the protocol defaults and 0; description from the starting flag; zero
online players and an empty sample. -/
def statusResponseFor (config : Config) (server : ServerState) : ServerStatus :=
  let vm : ServerVersion × Int :=
    match server.clone_status with
    | some st => (st.version, st.players.max)
    | none => (⟨PROTO_DEFAULT_VERSION, PROTO_DEFAULT_PROTOCOL⟩, 0)
  let description :=
    if server.starting then config.messages.motd_starting
    else config.messages.motd_sleeping
  { version := vm.1, description := description,
    players := { online := 0, max := vm.2, sample := [] } }

/-- Result of one serve-loop iteration body: halt the loop (break or panic)
or continue with a possibly updated client state. -/
inductive StepOut where
  | halt (events : List Event) (s : ServerState) (e : ServeEnd)
  | next (events : List Event) (s : ServerState) (cs : ClientState)
deriving Repr, DecidableEq

/-- Mirrors one iteration body of `serve` (status.rs lines 45-128).  The
four hijack `if`s are sequential, so a handshake packet that sets the state
to `Status` falls through to the status/ping checks in the same iteration
with the updated state. -/
def serveStep (config : Config) (now : Nat) (s : ServerState) (cs : ClientState)
    (p : InPacket) : StepOut :=
  if cs = ClientState.login ∧ p.id = LOGIN_PACKET_ID_LOGIN_START then
    let r := start_server s now
    .halt [Event.wrotePacket 0 (.loginDisconnect config.messages.login_starting),
           Event.startedServer r.2] r.1 .terminated
  else
    let hs : ServeEnd ⊕ ClientState :=
      if cs = ClientState.handshake ∧ p.id = STATUS_PACKET_ID_STATUS then
        match p.handshakeDecode with
        | none => Sum.inl ServeEnd.terminated
        | some h =>
          match ClientState.from_id h.next_state with
          | none => Sum.inl ServeEnd.panicked
          | some ns => Sum.inr ns
      else Sum.inr cs
    match hs with
    | Sum.inl e => .halt [] s e
    | Sum.inr cs1 =>
      if cs1 = ClientState.status ∧ p.id = STATUS_PACKET_ID_STATUS then
        .next [Event.wrotePacket 0 (.statusResponse (statusResponseFor config s))] s cs1
      else if cs1 = ClientState.status ∧ p.id = STATUS_PACKET_ID_PING then
        .next [Event.wroteRaw p.raw] s cs1
      else
        .next [] s cs1

/-- Mirrors the packet loop of `serve` (status.rs lines 34-129) over a list
of read results; the end of the list models client EOF (`Ok(None)`), a
`readFailed` item models a framing error, both of which `break`. -/
def serveLoop (config : Config) (now : Nat) :
    ServerState → ClientState → List ReadItem → List Event × ServerState × ServeEnd
  | s, _, [] => ([], s, .terminated)
  | s, _, .readFailed :: _ => ([], s, .terminated)
  | s, cs, .packet p :: rest =>
    match serveStep config now s cs p with
    | .halt evs s2 e => (evs, s2, e)
    | .next evs s2 cs2 =>
      let r := serveLoop config now s2 cs2 rest
      (evs ++ r.1, r.2)

/-! ## Concrete fixtures used by witnesses and counterexamples -/

/-- Example configuration: sleep after 60 s of idleness, keep online 5 s. -/
def exCfg : Config :=
  { time := { sleep_after := 60, min_online_time := 5 },
    messages := { login_starting := "Server is starting...",
                  motd_starting := "Starting...",
                  motd_sleeping := "Sleeping..." } }

/-- Example configuration with a zero minimum-online window. -/
def zeroCfg : Config :=
  { exCfg with time := { sleep_after := 60, min_online_time := 0 } }

/-- Example probed server status with no players online. -/
def exStatus0 : ServerStatus :=
  { version := { name := "1.17.1", protocol := 756 },
    description := "A Minecraft Server",
    players := { online := 0, max := 20, sample := [] } }

/-- State exercising the sleep decision: server online and starting, empty,
idle since instant 0, no keep-online window. -/
def c1state : ServerState :=
  { online := true, starting := true, stopping := false, pid := none,
    status := some exStatus0, last_active := some 0, keep_online_until := none }

/-- State with a start in progress, used for the spawn-failure claim. -/
def c7state : ServerState := { ServerState.default with starting := true }

/-! ## Claims about the lifecycle state (`src/server.rs`) -/

/-- C1: the claim says `should_sleep` requires `starting == false` and in
particular returns false whenever the starting flag is true.  The code at
server.rs line 172 reads `if !self.online() || !self.starting() { return
false; }`, so it proceeds only when the server IS starting, contradicting
the comment right above it ("Server must be online, and must not be
starting").  Concretely: with `starting = true`, the server online, no
players, no keep-online window and 60 s of idleness, `should_sleep` returns
true; flipping `starting` to false makes it return false. -/
theorem should_sleep_true_while_starting :
    c1state.starting = true ∧
    ServerState.should_sleep c1state exCfg 60 = true ∧
    ServerState.should_sleep { c1state with starting := false } exCfg 60 = false := by
  refine ⟨rfl, rfl, rfl⟩

/-- C2: after any `update_status(config, status)` call the stored online
flag equals `status.is_some() && !stopping`; in particular, if the stopping
flag was true when the call read it, the online flag is false afterwards. -/
theorem update_status_stopping_forces_offline (s : ServerState) (config : Config)
    (st : Option ServerStatus) (now : Nat) :
    (s.update_status config st now).online = (st.isSome && !s.stopping) ∧
    (s.stopping = true → (s.update_status config st now).online = false) := by
  have key : (s.update_status config st now).online = (st.isSome && !s.stopping) := by
    cases st <;>
      simp only [ServerState.update_status, ServerState.set_online,
        ServerState.set_status, ServerState.update_last_active_time,
        ServerState.set_keep_online_until] <;>
      split <;> (try split) <;> rfl
  refine ⟨key, fun h => ?_⟩
  rw [key, h]
  simp

/-- Witness for C2 at a concrete stopping state. -/
theorem update_status_stopping_forces_offline_witness :
    (ServerState.update_status { ServerState.default with stopping := true }
      exCfg (some exStatus0) 0).online = false :=
  (update_status_stopping_forces_offline
    { ServerState.default with stopping := true } exCfg (some exStatus0) 0).2 rfl

/-- Helper: the keep-online field written by `set_keep_online_until(Some m)`,
as an if-then-else. -/
theorem set_keep_online_until_eq (s : ServerState) (now m : Nat) :
    (s.set_keep_online_until now (some m)).keep_online_until =
      if 0 < m then some (now + m) else none := by
  by_cases hm : 0 < m <;> simp [ServerState.set_keep_online_until, Option.filter, hm]

/-- C3 counterexample: with `time.min_online_time = 0`, raising `online` from
false to true stores `keep_online_until = None`, not
`Some(now + min_online_time)` as the claim states, because
`set_keep_online_until` filters out zero durations. -/
theorem update_status_zero_min_online_counterexample :
    ServerState.default.online = false ∧
    (ServerState.default.update_status zeroCfg (some exStatus0) 10).online = true ∧
    (ServerState.default.update_status zeroCfg (some exStatus0) 10).keep_online_until
      ≠ some (10 + zeroCfg.time.min_online_time) := by
  refine ⟨rfl, rfl, by decide⟩

/-- C3 (amended): when `update_status` raises `online` from false to true it
sets `last_active = now` and sets `keep_online_until` to
`now + config.time.min_online_time` when that duration is positive and to
`None` when it is zero; when `online` does not rise, `keep_online_until` is
untouched and `last_active` changes only through the players-online
refresh. -/
theorem update_status_rise_sets_timers (s : ServerState) (config : Config)
    (st : Option ServerStatus) (now : Nat) :
    (s.online = false → (s.update_status config st now).online = true →
      (s.update_status config st now).last_active = some now ∧
      (s.update_status config st now).keep_online_until =
        (if 0 < config.time.min_online_time then some (now + config.time.min_online_time)
         else none)) ∧
    ((s.online = true ∨ (s.update_status config st now).online = false) →
      (s.update_status config st now).keep_online_until = s.keep_online_until ∧
      (s.update_status config st now).last_active =
        (match st with
         | some t => if t.players.online > 0 then some now else s.last_active
         | none => s.last_active)) := by
  cases st with
  | none =>
    refine ⟨fun h1 h2 => absurd h2 ?_, fun _ => ?_⟩
    · simp [ServerState.update_status, ServerState.set_online]
    · simp [ServerState.update_status, ServerState.set_online]
  | some t =>
    cases hon : s.online with
    | true =>
      refine ⟨fun h1 => absurd h1 (by simp), fun _ => ?_⟩
      by_cases hp : t.players.online > 0 <;>
        simp [ServerState.update_status, ServerState.set_online, ServerState.set_status,
          ServerState.update_last_active_time, hon, hp]
    | false =>
      cases hstop : s.stopping with
      | true =>
        refine ⟨fun h1 h2 => absurd h2 ?_, fun _ => ?_⟩
        · by_cases hp : t.players.online > 0 <;>
            simp [ServerState.update_status, ServerState.set_online, ServerState.set_status,
              ServerState.update_last_active_time, hon, hstop, hp]
        · by_cases hp : t.players.online > 0 <;>
            simp [ServerState.update_status, ServerState.set_online, ServerState.set_status,
              ServerState.update_last_active_time, hon, hstop, hp]
      | false =>
        refine ⟨fun _ _ => ?_, fun hcase => ?_⟩
        · by_cases hp : t.players.online > 0 <;>
            by_cases hm : 0 < config.time.min_online_time <;>
            simp [ServerState.update_status, ServerState.set_online, ServerState.set_status,
              ServerState.update_last_active_time, ServerState.set_keep_online_until,
              Option.filter, hon, hstop, hp, hm]
        · exfalso
          rcases hcase with h | h
          · exact Bool.false_ne_true h
          · by_cases hp : t.players.online > 0 <;>
              simp [ServerState.update_status, ServerState.set_online, ServerState.set_status,
                ServerState.update_last_active_time, ServerState.set_keep_online_until,
                Option.filter, hon, hstop, hp] at h

/-- Witness for C3 (amended) on a concrete rise with a positive window. -/
theorem update_status_rise_sets_timers_witness :
    (ServerState.default.update_status exCfg (some exStatus0) 10).last_active = some 10 ∧
    (ServerState.default.update_status exCfg (some exStatus0) 10).keep_online_until =
      (if 0 < exCfg.time.min_online_time then some (10 + exCfg.time.min_online_time)
       else none) :=
  (update_status_rise_sets_timers ServerState.default exCfg (some exStatus0) 10).1
    rfl rfl

/-- C9: the sticky-status invariant for `update_status` and `set_status`: a
`None` probe leaves the stored status unchanged, a successful probe replaces
it, `set_status` always stores `Some`, and a stored status never goes back
to `None`. -/
theorem update_status_status_sticky (s : ServerState) (config : Config)
    (st : Option ServerStatus) (now : Nat) :
    ((s.update_status config none now).status = s.status) ∧
    (∀ t, (s.update_status config (some t) now).status = some t) ∧
    (∀ t, (s.set_status t).status = some t) ∧
    (s.status.isSome = true → ((s.update_status config st now).status).isSome = true) := by
  have hnone : (s.update_status config none now).status = s.status := by
    simp only [ServerState.update_status, ServerState.set_online,
      ServerState.update_last_active_time, ServerState.set_keep_online_until]
    split <;> rfl
  have hsome : ∀ t, (s.update_status config (some t) now).status = some t := by
    intro t
    simp only [ServerState.update_status, ServerState.set_online, ServerState.set_status,
      ServerState.update_last_active_time, ServerState.set_keep_online_until]
  refine ⟨hnone, hsome, fun t => rfl, fun h => ?_⟩
  cases st with
  | none => rw [hnone]; exact h
  | some t => rw [hsome t]; rfl

/-- Witness for C9 with a status already stored. -/
theorem update_status_status_sticky_witness :
    (((c1state.update_status exCfg none 0).status).isSome = true) :=
  (update_status_status_sticky c1state exCfg none 0).2.2.2 rfl

/-- C10: `set_keep_online_until(None)` and `set_keep_online_until(Some 0)`
clear the keep-online instant, and `set_keep_online_until(Some n)` with
`n > 0` stores `now + n`; so `min_online_time = 0` yields no keep-online
window rather than a zero-length one. -/
theorem set_keep_online_until_zero_window (s : ServerState) (now n : Nat) :
    ((s.set_keep_online_until now none).keep_online_until = none) ∧
    ((s.set_keep_online_until now (some 0)).keep_online_until = none) ∧
    ((s.set_keep_online_until now (some n)).keep_online_until =
      if 0 < n then some (now + n) else none) := by
  refine ⟨rfl, ?_, set_keep_online_until_eq s now n⟩
  rw [set_keep_online_until_eq]
  simp

/-- C7: the claim says the process controller clears the starting flag
before exiting when spawning fails.  The code (`cmd.spawn()?` at server.rs
line 237) returns `Err` early without touching any state — the `TODO` at
line 245 ("also set this when returning early due to error") records exactly
this gap — so `starting` stays true and a later `start_server` call is a
no-op forever. -/
theorem invoke_server_command_spawn_failure_keeps_starting :
    c7state.starting = true ∧
    (invoke_server_command .spawnFailed c7state).1 = c7state ∧
    (invoke_server_command .spawnFailed c7state).2 = .error () ∧
    (start_server (invoke_server_command .spawnFailed c7state).1 99).2 = false :=
  ⟨rfl, rfl, rfl, rfl⟩

/-! ## Claims about the status hijack handler (`src/status.rs`) -/

/-- C8: the claim says a Handshake packet whose `next_state` is neither 1
nor 2 makes the handler close the session without a response rather than
crash the task.  The code instead unwraps `ClientState::from_id(next_state)`
with `expect("unknown next client state")` (status.rs line 71, flagged by
the `TODO: do not panic here` right above), panicking the session task.
Concretely, a handshake with `next_state = 3` ends the loop in the panic
state (no response is written either way). -/
theorem serve_handshake_unknown_next_state_panics :
    serveLoop exCfg 0 ServerState.default ClientState.handshake
      [ReadItem.packet ⟨0, some ⟨754, "localhost", 25565, 3⟩, []⟩]
      = ([], ServerState.default, ServeEnd.panicked) := by
  rfl

/-- C4: on a framed packet with session state Login and id 0x00 the handler
writes exactly one LoginDisconnect packet (id 0) whose reason is
`config.messages.login_starting`, requests a server start (which spawns the
controller only when `starting` was not already set), and ends the loop
without touching the remaining packets; and the start request is a no-op on
the state when `starting` was already set. -/
theorem serve_login_start_hijack (config : Config) (now : Nat) (s : ServerState)
    (p : InPacket) (rest : List ReadItem) (h : p.id = LOGIN_PACKET_ID_LOGIN_START) :
    serveLoop config now s ClientState.login (ReadItem.packet p :: rest) =
      ([Event.wrotePacket 0 (OutBody.loginDisconnect config.messages.login_starting),
        Event.startedServer (!s.starting)],
       (start_server s now).1, ServeEnd.terminated) ∧
    (s.starting = true → (start_server s now).1 = s) := by
  constructor
  · cases hs : s.starting <;>
      simp [serveLoop, serveStep, h, start_server, hs]
  · intro hs
    simp [start_server, hs]

/-- Witness for C4: a Login Start packet on a fresh state. -/
theorem serve_login_start_hijack_witness :
    serveLoop exCfg 0 ServerState.default ClientState.login
      [ReadItem.packet ⟨0, none, []⟩, ReadItem.packet ⟨5, none, [1, 2]⟩] =
      ([Event.wrotePacket 0
          (OutBody.loginDisconnect exCfg.messages.login_starting),
        Event.startedServer (!ServerState.default.starting)],
       (start_server ServerState.default 0).1, ServeEnd.terminated) :=
  (serve_login_start_hijack exCfg 0 ServerState.default ⟨0, none, []⟩
    [ReadItem.packet ⟨5, none, [1, 2]⟩] rfl).1

/-- C5: on a Status Request (session state Status, id 0x00) the handler
writes a status response whose version and max-players come from the last
known server status when one is present and otherwise from the defaults
("1.16.5", protocol 754, max 0), whose description follows the starting
flag, and which always reports zero online players with an empty sample;
the loop then continues with the remaining packets. -/
theorem serve_status_request_response (config : Config) (server : ServerState)
    (now : Nat) (p : InPacket) (rest : List ReadItem)
    (h : p.id = STATUS_PACKET_ID_STATUS) :
    (statusResponseFor config server).version =
      (match server.status with
       | some st => st.version
       | none => ⟨PROTO_DEFAULT_VERSION, PROTO_DEFAULT_PROTOCOL⟩) ∧
    (statusResponseFor config server).players.max =
      (match server.status with
       | some st => st.players.max
       | none => 0) ∧
    (statusResponseFor config server).description =
      (if server.starting then config.messages.motd_starting
       else config.messages.motd_sleeping) ∧
    (statusResponseFor config server).players.online = 0 ∧
    (statusResponseFor config server).players.sample = [] ∧
    serveLoop config now server ClientState.status (ReadItem.packet p :: rest) =
      (Event.wrotePacket 0 (OutBody.statusResponse (statusResponseFor config server))
         :: (serveLoop config now server ClientState.status rest).1,
       (serveLoop config now server ClientState.status rest).2) := by
  refine ⟨?_, ?_, ?_, rfl, rfl, ?_⟩
  · cases hst : server.status <;>
      simp [statusResponseFor, ServerState.clone_status, hst]
  · cases hst : server.status <;>
      simp [statusResponseFor, ServerState.clone_status, hst]
  · cases hst : server.status <;> cases hs : server.starting <;>
      simp [statusResponseFor, ServerState.clone_status, hst, hs]
  · simp [serveLoop, serveStep, h]

/-- Witness for C5: a Status Request on a fresh (probe-less, not starting)
state followed by a ping. -/
theorem serve_status_request_response_witness :
    serveLoop exCfg 0 ServerState.default ClientState.status
      [ReadItem.packet ⟨0, none, []⟩, ReadItem.packet ⟨1, none, [9, 1, 7]⟩] =
      (Event.wrotePacket 0
          (OutBody.statusResponse (statusResponseFor exCfg ServerState.default))
         :: (serveLoop exCfg 0 ServerState.default ClientState.status
              [ReadItem.packet ⟨1, none, [9, 1, 7]⟩]).1,
       (serveLoop exCfg 0 ServerState.default ClientState.status
          [ReadItem.packet ⟨1, none, [9, 1, 7]⟩]).2) :=
  (serve_status_request_response exCfg ServerState.default 0 ⟨0, none, []⟩
    [ReadItem.packet ⟨1, none, [9, 1, 7]⟩] rfl).2.2.2.2.2

/-- Helper: when a read loop reports a closed connection, the consumed
events contain an EOF chunk or a connection reset. -/
theorem fill_closed_mem (need : Nat) :
    ∀ (buf : List Nat) (reads : List ReadEvent), fill need buf reads = .closed →
      ∃ e ∈ reads, e = ReadEvent.bytes [] ∨ e = ReadEvent.reset := by
  intro buf reads
  induction reads generalizing buf with
  | nil =>
    intro h
    by_cases hlen : need ≤ buf.length <;> simp [fill, hlen] at h
  | cons e rest ih =>
    intro h
    by_cases hlen : need ≤ buf.length
    · simp [fill, hlen] at h
    · cases e with
      | bytes bs =>
        by_cases hb : bs.isEmpty
        · have hbs : bs = [] := List.isEmpty_iff.mp hb
          exact ⟨ReadEvent.bytes bs, List.mem_cons_self _ _, Or.inl (by rw [hbs])⟩
        · simp [fill, hlen, hb] at h
          rcases ih (buf ++ bs) h with ⟨x, hx, hor⟩
          exact ⟨x, List.mem_cons_of_mem _ hx, hor⟩
      | reset => exact ⟨ReadEvent.reset, List.mem_cons_self _ _, Or.inr rfl⟩
      | ioError => simp [fill, hlen] at h

/-- Helper: a completed read loop only appends to the buffer, hands back a
suffix of the events, and guarantees the needed length. -/
theorem fill_done_spec (need : Nat) :
    ∀ (buf : List Nat) (reads : List ReadEvent) (buf2 : List Nat)
      (rest2 : List ReadEvent), fill need buf reads = .done buf2 rest2 →
      (∃ extra, buf2 = buf ++ extra) ∧ (∀ e, e ∈ rest2 → e ∈ reads) ∧
        need ≤ buf2.length := by
  intro buf reads
  induction reads generalizing buf with
  | nil =>
    intro buf2 rest2 h
    by_cases hlen : need ≤ buf.length
    · simp [fill, hlen] at h
      rcases h with ⟨h1, h2⟩
      subst h1
      subst h2
      exact ⟨⟨[], (List.append_nil _).symm⟩, fun e he => he, hlen⟩
    · simp [fill, hlen] at h
  | cons e rest ih =>
    intro buf2 rest2 h
    by_cases hlen : need ≤ buf.length
    · simp [fill, hlen] at h
      rcases h with ⟨h1, h2⟩
      subst h1
      subst h2
      exact ⟨⟨[], (List.append_nil _).symm⟩, fun x hx => hx, hlen⟩
    · cases e with
      | bytes bs =>
        by_cases hb : bs.isEmpty
        · simp [fill, hlen, hb] at h
        · simp [fill, hlen, hb] at h
          rcases ih (buf ++ bs) buf2 rest2 h with ⟨⟨extra, hext⟩, hmem, hlen2⟩
          refine ⟨⟨bs ++ extra, by rw [hext, List.append_assoc]⟩,
            fun x hx => List.mem_cons_of_mem _ (hmem x hx), hlen2⟩
      | reset => simp [fill, hlen] at h
      | ioError => simp [fill, hlen] at h

/-- Helper: a successful VarInt parse is stable under appending bytes to the
buffer: only the consumed prefix is examined. -/
theorem readVarIntAux_append :
    ∀ (buf : List Nat) (i acc c v : Nat) (tail : List Nat),
      readVarIntAux i acc buf = .ok (c, v) →
      readVarIntAux i acc (buf ++ tail) = .ok (c, v) := by
  intro buf
  induction buf with
  | nil => intro i acc c v tail h; simp [readVarIntAux] at h
  | cons b rest ih =>
    intro i acc c v tail h
    simp only [readVarIntAux] at h
    simp only [List.cons_append, readVarIntAux]
    by_cases hb : b < 128
    · simpa [hb] using h
    · by_cases h5 : i + 1 ≥ 5
      · rw [if_neg hb, if_pos h5] at h
        exact absurd h (by simp)
      · rw [if_neg hb, if_neg h5] at h
        rw [if_neg hb, if_neg h5]
        exact ih (i + 1) _ c v tail h

/-- C6 counterexample: the claim says `read_packet` returns `None` exactly
when EOF arrives before any bytes of a new packet, or on a reset.  Here one
byte of the new packet arrives, then EOF — no reset anywhere — and the code
still returns `Ok(None)` (the EOF check at main.rs lines 110-112 and 139-141
fires at any point, not only before the first byte). -/
theorem read_packet_none_despite_partial_bytes :
    read_packet [] [ReadEvent.bytes [5], ReadEvent.bytes []] = ReadPacketResult.closed ∧
    ReadEvent.reset ∉ [ReadEvent.bytes [5], ReadEvent.bytes []] ∧
    List.head? [ReadEvent.bytes [5], ReadEvent.bytes []] ≠ some (ReadEvent.bytes []) := by
  refine ⟨rfl, by decide, by decide⟩

/-- C6 (amended): `read_packet` returns `None` only when an EOF chunk or a
connection reset was observed — at any point while framing, not only before
the first byte; a non-reset read error surfaces as a framing failure; and a
successful return splits exactly `consumed + payload_len` bytes off the
accumulated buffer and decodes them as the returned packet. -/
theorem read_packet_amended (buf : List Nat) (reads : List ReadEvent) :
    (read_packet buf reads = .closed →
       ∃ e ∈ reads, e = ReadEvent.bytes [] ∨ e = ReadEvent.reset) ∧
    (∀ rest, buf.length < 2 →
       read_packet buf (ReadEvent.ioError :: rest) = .framingError) ∧
    (∀ p raw remaining rest2,
       read_packet buf reads = .packet p raw remaining rest2 →
       RawPacket.decode raw = some p ∧
       (∃ c l, read_var_int (raw ++ remaining) = .ok (c, l) ∧ raw.length = c + l) ∧
       (∃ extra, raw ++ remaining = buf ++ extra)) := by
  refine ⟨?_, ?_, ?_⟩
  · intro h
    cases hf1 : fill 2 buf reads with
    | closed => exact fill_closed_mem 2 buf reads hf1
    | failed => simp [read_packet, hf1] at h
    | starved => simp [read_packet, hf1] at h
    | done buf1 rest1 =>
      cases hv : read_var_int buf1 with
      | error e => simp [read_packet, hf1, hv] at h
      | ok cl =>
        obtain ⟨c, l⟩ := cl
        cases hf2 : fill (c + l) buf1 rest1 with
        | closed =>
          rcases fill_closed_mem (c + l) buf1 rest1 hf2 with ⟨e, he, hor⟩
          rcases fill_done_spec 2 buf reads buf1 rest1 hf1 with ⟨_, hmem, _⟩
          exact ⟨e, hmem e he, hor⟩
        | failed => simp [read_packet, hf1, hv, hf2] at h
        | starved => simp [read_packet, hf1, hv, hf2] at h
        | done buf2 rest2 =>
          cases hd : RawPacket.decode (buf2.take (c + l)) with
          | none => simp [read_packet, hf1, hv, hf2, hd] at h
          | some q => simp [read_packet, hf1, hv, hf2, hd] at h
  · intro rest hlen
    have h2 : ¬ 2 ≤ buf.length := by omega
    simp [read_packet, fill, h2]
  · intro p raw remaining rest2 h
    cases hf1 : fill 2 buf reads with
    | closed => simp [read_packet, hf1] at h
    | failed => simp [read_packet, hf1] at h
    | starved => simp [read_packet, hf1] at h
    | done buf1 rest1 =>
      cases hv : read_var_int buf1 with
      | error e => simp [read_packet, hf1, hv] at h
      | ok cl =>
        obtain ⟨c, l⟩ := cl
        cases hf2 : fill (c + l) buf1 rest1 with
        | closed => simp [read_packet, hf1, hv, hf2] at h
        | failed => simp [read_packet, hf1, hv, hf2] at h
        | starved => simp [read_packet, hf1, hv, hf2] at h
        | done buf2 rest2x =>
          cases hd : RawPacket.decode (buf2.take (c + l)) with
          | none => simp [read_packet, hf1, hv, hf2, hd] at h
          | some q =>
            have hval : read_packet buf reads =
                .packet q (buf2.take (c + l)) (buf2.drop (c + l)) rest2x := by
              simp [read_packet, hf1, hv, hf2, hd]
            rw [hval] at h
            injection h with h1 h2 h3 h4
            subst h1
            subst h2
            subst h3
            subst h4
            rcases fill_done_spec 2 buf reads buf1 rest1 hf1 with ⟨⟨e1, hext1⟩, _, _⟩
            rcases fill_done_spec (c + l) buf1 rest1 buf2 rest2x hf2 with
              ⟨⟨e2, hext2⟩, _, hlen2⟩
            refine ⟨hd, ⟨c, l, ?_, ?_⟩, ?_⟩
            · rw [List.take_append_drop, hext2]
              exact readVarIntAux_append buf1 0 0 c l e2 hv
            · rw [List.length_take]
              exact min_eq_left hlen2
            · exact ⟨e1 ++ e2, by rw [List.take_append_drop, hext2, hext1,
                List.append_assoc]⟩

/-- Witness for C6 (amended) at a concrete two-byte packet arriving in one
chunk: length VarInt 1, id VarInt 0, empty payload. -/
theorem read_packet_amended_witness :
    RawPacket.decode [1, 0] = some ⟨0, []⟩ ∧
    (∃ c l, read_var_int ([1, 0] ++ ([] : List Nat)) = .ok (c, l) ∧
      ([1, 0] : List Nat).length = c + l) ∧
    (∃ extra, [1, 0] ++ ([] : List Nat) = ([] : List Nat) ++ extra) :=
  (read_packet_amended [] [ReadEvent.bytes [1, 0]]).2.2 ⟨0, []⟩ [1, 0] [] []
    (by rfl)
